import Mathlib

/-!
Verification of the `punkt` dotfile manager (`src/punkt/cli.py`) against its
natural-language specification.

We shallowly embed the filesystem-facing fragment of the program:

* An absolute path is a list of name components from the root.
* The filesystem is a finite association list from paths to entries, where an
  entry is a regular file (with content), a directory, or a symbolic link
  storing its raw (one-level, unresolved) target path.
* `pathlib.Path.resolve()` (non-strict) is modelled by fuel-bounded,
  component-wise symlink resolution; `os.readlink` reads the stored raw
  target of a symlink and fails on anything else; `Path.exists()` follows
  symlinks (so it is false on a dangling symlink); `Path.is_symlink()` looks
  at the entry itself without following it.

The definitions follow `cli.py` function by function; each doc comment names
the source function it translates.
-/

namespace Punkt

/-- An absolute filesystem path, as its list of name components from the
root.  `pathlib.Path` equality on already-absolute, `..`-free paths is
component-wise, i.e. list equality. -/
abbrev FsPath := List String

/-- A filesystem entry: a regular file with its content, a directory, or a
symbolic link storing its raw (unresolved) target path. -/
inductive Entry where
  | file (content : String)
  | dir
  | symlink (target : FsPath)
deriving DecidableEq, Repr

/-- Filesystem state: a finite association list from absolute paths to
entries.  Lookup takes the first binding for a path. -/
abbrev FS := List (FsPath × Entry)

/-- Look up the entry stored at `p` (no symlink following): the model of
`os.lstat` — what `is_symlink()` and `os.readlink` inspect. -/
def FS.lookup (fs : FS) (p : FsPath) : Option Entry :=
  match fs with
  | [] => none
  | (q, e) :: rest => if q = p then some e else FS.lookup rest p

/-- Bind path `p` to entry `e` (new binding shadows any old one). -/
def FS.set (fs : FS) (p : FsPath) (e : Entry) : FS :=
  (p, e) :: fs

/-- Component-wise symlink resolution with fuel, modelling non-strict
`pathlib.Path.resolve()`: walk the components left to right; whenever the
prefix assembled so far is a symlink, splice its raw target in front of the
remaining components and continue.  Missing components are kept as-is
(non-strict resolution does not require the path to exist).  Fuel bounds the
total number of steps; with fuel at least the component count plus the total
length of all symlink chains encountered, the result is exact. -/
def resolveAux (fs : FS) : Nat → FsPath → List String → FsPath
  | 0, acc, rest => acc ++ rest
  | _ + 1, acc, [] => acc
  | fuel + 1, acc, c :: rest =>
    match FS.lookup fs (acc ++ [c]) with
    | some (.symlink t) => resolveAux fs fuel [] (t ++ rest)
    | _ => resolveAux fs fuel (acc ++ [c]) rest

/-- `p.resolve()`: fully resolve every symlink in `p`, non-strictly. -/
def resolve (fs : FS) (fuel : Nat) (p : FsPath) : FsPath :=
  resolveAux fs fuel [] p

/-- `p.is_symlink()`: the entry at `p` itself (not followed) is a symlink;
true also for a dangling symlink. -/
def isSymlink (fs : FS) (p : FsPath) : Bool :=
  match FS.lookup fs p with
  | some (.symlink _) => true
  | _ => false

/-- `os.readlink(p)` as a fallible operation: returns the raw one-level
target of the symlink at `p`, and raises `OSError` when `p` is not a
symlink. -/
def readlinkE (fs : FS) (p : FsPath) : Except String FsPath :=
  match FS.lookup fs p with
  | some (.symlink t) => .ok t
  | _ => .error "OSError: [Errno 22] Invalid argument"

/-- `os.readlink(p)` as a partial function (the value the code compares
after guarding with `is_symlink()`). -/
def readlinkD (fs : FS) (p : FsPath) : Option FsPath :=
  match FS.lookup fs p with
  | some (.symlink t) => some t
  | _ => none

/-- `p.exists()`: follows symlinks, so a dangling symlink does not exist
(the comment in `Link._status` relies on exactly this). -/
def existsF (fs : FS) (fuel : Nat) (p : FsPath) : Bool :=
  (FS.lookup fs (resolve fs fuel p)).isSome

/-- The `Link` dataclass: a desired correspondence between the link
location (`_loc` in the source) and the canonical target (`_target`). -/
structure Link where
  loc : FsPath
  target : FsPath
deriving DecidableEq, Repr

/-- The three classification outcomes of `Link._status`. -/
inductive LinkStatus where
  | managed
  | unmanaged
  | missing
deriving DecidableEq, Repr

/-- Translation of `Link._status` (cli.py lines 43-54):

1. `if self._loc.resolve() == self._target: return 'managed'`
2. `if self._loc.is_symlink():` compare `Path(os.readlink(self._loc))`
   (one level, unresolved) with `self._target`; equal gives `'managed'`,
   unequal gives `'unmanaged'`
3. `if self._loc.exists(): return 'unmanaged'`
4. `return 'missing'` -/
def Link.status (fs : FS) (fuel : Nat) (l : Link) : LinkStatus :=
  if resolve fs fuel l.loc = l.target then .managed
  else if isSymlink fs l.loc then
    if readlinkD fs l.loc = some l.target then .managed else .unmanaged
  else if existsF fs fuel l.loc then .unmanaged
  else .missing

/-- `Link._status` with the fallible `os.readlink` call made explicit: the
only operation in the body that can raise on a dangling symlink is
`os.readlink`, and the code guards it behind `is_symlink()`. -/
def Link.statusE (fs : FS) (fuel : Nat) (l : Link) : Except String LinkStatus :=
  if resolve fs fuel l.loc = l.target then .ok .managed
  else if isSymlink fs l.loc then
    match readlinkE fs l.loc with
    | .error e => .error e
    | .ok t => if t = l.target then .ok .managed else .ok .unmanaged
  else if existsF fs fuel l.loc then .ok .unmanaged
  else .ok .missing

/-- Modelled from the spec (section 4.1 "Classifier"), for comparison with
the code's `Link.status`: the priority order is (1) full resolution of
`link` equals `target`; (2) `link` is a symbolic reference (dangling or
not) and its immediate one-level unresolved target read as a path decides
Managed/Unmanaged; (3) `link` exists as a real filesystem entry: Unmanaged;
(4) otherwise Missing. -/
def classifySpec (fs : FS) (fuel : Nat) (target link : FsPath) : LinkStatus :=
  if resolve fs fuel link = target then
    LinkStatus.managed
  else if isSymlink fs link then
    (if readlinkD fs link = some target then LinkStatus.managed
     else LinkStatus.unmanaged)
  else if existsF fs fuel link then
    LinkStatus.unmanaged
  else
    LinkStatus.missing

/-- Translation of `Link.install`: `self._loc.symlink_to(self._target)`.
`os.symlink` raises `FileExistsError` when something (even a dangling
symlink) already occupies the location; otherwise it creates the symlink
with the raw target stored unresolved. -/
def Link.installOp (fs : FS) (l : Link) : Except String FS :=
  match FS.lookup fs l.loc with
  | some _ => .error "FileExistsError"
  | none => .ok (FS.set fs l.loc (.symlink l.target))

/-- Translation of `Link.backup` (cli.py lines 65-70).  The body begins
with an unconditional `return  # TODO`; the three lines that would compute
the timestamped parent, `mkdir` it and `rename` the location into it are
unreachable dead code.  The function therefore performs no filesystem
operation and returns `None`: the state is returned unchanged. -/
def Link.backupOp (fs : FS) (_l : Link) (_backupsDir : FsPath) : FS :=
  fs

/-- Per-entry outcome recorded while a run iterates its links, mirroring
the echoed progress messages of `install` and `uninstall`. -/
inductive Act where
  | skipManaged
  | dryBackup
  | dryCreate
  | created
  | skipMissing
  | skipUnmanaged
  | dryUninstall
  | reportedOk
deriving DecidableEq, Repr

/-- One iteration of the loop body of the `install` command (cli.py lines
181-199) on a single link.  Managed: skip.  Unmanaged: the code evaluates
`link.backup()` — but `Link.backup` requires the positional argument
`backups_dir`, so the zero-argument call raises `TypeError`, uncaught, and
the run aborts (under `--dry-run` the backup branch only echoes and the
call is never reached).  Then (still unmanaged or missing): create the
symlink, or only report it under `--dry-run`. -/
def installStep (fuel : Nat) (dryRun : Bool) (fs : FS) (l : Link) :
    Except String (FS × List Act) :=
  match Link.status fs fuel l with
  | .managed => .ok (fs, [.skipManaged])
  | .unmanaged =>
    if dryRun then .ok (fs, [.dryBackup, .dryCreate])
    else .error "TypeError: backup() missing 1 required positional argument: backups_dir"
  | .missing =>
    if dryRun then .ok (fs, [.dryCreate])
    else
      match Link.installOp fs l with
      | .error e => .error e
      | .ok fs2 => .ok (fs2, [.created])

/-- The `install` command: fold `installStep` over the configured links in
order; an uncaught exception aborts the whole run (Python propagates it out
of the `for` loop). -/
def installRun (fuel : Nat) (dryRun : Bool) (fs : FS) :
    List Link → Except String (FS × List Act)
  | [] => .ok (fs, [])
  | l :: ls =>
    match installStep fuel dryRun fs l with
    | .error e => .error e
    | .ok (fs2, acts) =>
      match installRun fuel dryRun fs2 ls with
      | .error e => .error e
      | .ok (fs3, acts2) => .ok (fs3, acts ++ acts2)

/-- One iteration of the loop body of the `uninstall` command (cli.py lines
210-224).  Missing and Unmanaged entries are skipped.  For a Managed entry:
under `--dry-run` only a report; with `--no-backup` the body does nothing
beyond echoing ok (no removal of any kind happens); otherwise the code
evaluates `link.backup()`, which raises `TypeError` for the missing
`backups_dir` argument, uncaught, aborting the run. -/
def uninstallStep (fuel : Nat) (dryRun noBackup : Bool) (fs : FS) (l : Link) :
    Except String (FS × List Act) :=
  match Link.status fs fuel l with
  | .missing => .ok (fs, [.skipMissing])
  | .unmanaged => .ok (fs, [.skipUnmanaged])
  | .managed =>
    if dryRun then .ok (fs, [.dryUninstall])
    else if noBackup then .ok (fs, [.reportedOk])
    else .error "TypeError: backup() missing 1 required positional argument: backups_dir"

/-- The `uninstall` command: fold `uninstallStep` over the configured links
in order, aborting on an uncaught exception. -/
def uninstallRun (fuel : Nat) (dryRun noBackup : Bool) (fs : FS) :
    List Link → Except String (FS × List Act)
  | [] => .ok (fs, [])
  | l :: ls =>
    match uninstallStep fuel dryRun noBackup fs l with
    | .error e => .error e
    | .ok (fs2, acts) =>
      match uninstallRun fuel dryRun noBackup fs2 ls with
      | .error e => .error e
      | .ok (fs3, acts2) => .ok (fs3, acts ++ acts2)

/-- `p.iterdir()`: the immediate children of directory `p`, in filesystem
enumeration order, which the model takes to be the association-list order.
(The error cases of `iterdir` on a missing or non-directory path are not
needed by any claim and are not modelled.) -/
def iterdir (fs : FS) (p : FsPath) : List FsPath :=
  (fs.filter (fun q => decide (q.1.dropLast = p) && !q.1.isEmpty)).map (·.1)

/-- The attributes `load_config` installs on the dynamically loaded config
module object (`conf_spec`): the data root and the two configured
sequences, already tilde-expanded and defaulted by the loader. -/
structure ConfSpec where
  data_path : FsPath
  directories : List (FsPath × FsPath)
  symlinks : List (FsPath × FsPath)
deriving DecidableEq, Repr

/-- The `Config` class.  Its instances carry exactly two attributes: the
link list `_links` (set in `__init__`) and `spec` (set by `load_config` to
the loaded module object).  In particular `directories` and `data_path`
are attributes of `spec`, not of `Config` itself. -/
structure Config where
  links : List Link
  spec : ConfSpec
deriving DecidableEq, Repr

/-- `Config.add_link`: append one `Link(link, target)` to `_links`. -/
def Config.add_link (c : Config) (link target : FsPath) : Config :=
  { c with links := c.links ++ [Link.mk link target] }

/-- Translation of `Config.add_links` (cli.py lines 81-87): resolve
`target` under the data root, then for every immediate child of that data
subdirectory add one link `link/<child name> -> <child>`. -/
def Config.add_links (fs : FS) (c : Config) (link target : FsPath) : Config :=
  (iterdir fs (c.spec.data_path ++ target)).foldl
    (fun c2 p => c2.add_link (link ++ [p.getLastD ""]) p) c

/-- The link-set expansion performed by `load_config` (cli.py lines
106-112) once the module object `conf` has been loaded: starting from an
empty `Config`, call `add_links` for each `(target, link)` pair of
`conf.directories` in configuration order.  The line after the loop is
`# TODO handle explicit symlinks`: `conf.symlinks` is never read, so
explicit symlink pairs contribute nothing to the expansion. -/
def load_config (fs : FS) (conf : ConfSpec) : Config :=
  conf.directories.foldl (fun c td => Config.add_links fs c td.2 td.1)
    { links := [], spec := conf }

/-- `Config.all_links`: the expanded link sequence a run iterates. -/
def Config.all_links (c : Config) : List Link :=
  c.links

/-- Translation of the `add` command (cli.py lines 130-155).  After the
existence check (`path.exists() or path.is_symlink()`), the loop header
`for target_parent, link_parent in config.directories:` evaluates
`config.directories` — an attribute the `Config` object does not have (the
configured pairs live on `config.spec`) — so every invocation that passes
the existence check raises `AttributeError`, uncaught, before any further
precondition check or mutation.  (The code past that line is unreachable;
it also contains `config.data_path`, a second missing attribute, and
`path.rename(path, target)`, which passes two positional arguments to the
one-parameter method `Path.rename` and would raise `TypeError`.) -/
def addCmd (fuel : Nat) (_config : Config) (fs : FS) (path : FsPath) :
    Except String FS :=
  if !(existsF fs fuel path || isSymlink fs path) then
    .error "fatal: not found"
  else
    .error "AttributeError: Config object has no attribute directories"

/-! ## Concrete states used by witnesses and counterexamples -/

/-- The canonical data root used by the concrete examples. -/
def dataRoot : FsPath := ["home", "u", ".dotfiles", "data"]

/-- A state whose only entry is a dangling symlink at `~/.foo` whose raw
target equals the managed target (which does not exist). -/
def danglingFS : FS :=
  [(["home", "u", ".foo"], Entry.symlink (dataRoot ++ ["home", ".foo"]))]

/-- The link spec for `~/.foo` in the dangling example. -/
def danglingLink : Link :=
  ⟨["home", "u", ".foo"], dataRoot ++ ["home", ".foo"]⟩

/-- A state where `~/.foo` is a plain (unmanaged) file with content. -/
def unmanagedFS : FS := [(["home", "u", ".foo"], Entry.file "bar")]

/-- The link spec for `~/.foo` in the unmanaged example. -/
def unmanagedLink : Link :=
  ⟨["home", "u", ".foo"], dataRoot ++ ["home", ".foo"]⟩

/-- A state where `~/.vimrc` is a plain file with real content. -/
def vimrcFS : FS := [(["home", "u", ".vimrc"], Entry.file "real content")]

/-- The link spec for `~/.vimrc`. -/
def vimrcLink : Link :=
  ⟨["home", "u", ".vimrc"], dataRoot ++ ["home", ".vimrc"]⟩

/-- The backup root used by the concrete examples. -/
def backupRoot : FsPath := ["home", "u", ".cache", "punkt", "backup2026"]

/-- A state where `~/.foo` is a managed symlink and its target exists. -/
def managedFS : FS :=
  [(["home", "u", ".foo"], Entry.symlink (dataRoot ++ ["home", ".foo"])),
   (dataRoot ++ ["home", ".foo"], Entry.file "foo")]

/-- The link spec for `~/.foo` in the managed example. -/
def managedLink : Link :=
  ⟨["home", "u", ".foo"], dataRoot ++ ["home", ".foo"]⟩

/-- Two real files in different parents sharing the base name `.foo`. -/
def collisionFS : FS :=
  [(["home", "u", "a", ".foo"], Entry.file "first"),
   (["home", "u", "b", ".foo"], Entry.file "second")]

/-- First link with base name `.foo`. -/
def collisionLinkA : Link :=
  ⟨["home", "u", "a", ".foo"], dataRoot ++ ["a", ".foo"]⟩

/-- Second link with the same base name `.foo`. -/
def collisionLinkB : Link :=
  ⟨["home", "u", "b", ".foo"], dataRoot ++ ["b", ".foo"]⟩

/-- Configuration holding one explicit symlink pair and no directory
pairs. -/
def explicitPairConf : ConfSpec :=
  { data_path := dataRoot
    directories := []
    symlinks := [(dataRoot ++ ["topic", ".gitconfig"], ["home", "u", ".gitconfig"])] }

/-- State in which the explicit pair's target exists. -/
def explicitPairFS : FS :=
  [(dataRoot ++ ["topic", ".gitconfig"], Entry.file "x")]

/-- Configuration mapping the data subdirectory `home` to the link parent
`~` (i.e. `["home","u"]`). -/
def addConf : ConfSpec :=
  { data_path := dataRoot
    directories := [(["home"], ["home", "u"])]
    symlinks := [] }

/-- State for the `add` example: the data subdirectory has one child and a
real unmanaged file `~/.bashrc` (a direct child of the configured link
parent) is present. -/
def addFS : FS :=
  [(dataRoot ++ ["home", ".foo"], Entry.file "foo"),
   (["home", "u", ".bashrc"], Entry.file "x")]

/-! ## Helper lemmas -/

/-- Under `--dry-run`, one `install` iteration never mutates the state and
never raises. -/
theorem installStep_dryRun (fuel : Nat) (fs : FS) (l : Link) :
    ∃ acts, installStep fuel true fs l = Except.ok (fs, acts) := by
  unfold installStep
  cases Link.status fs fuel l
  · exact ⟨[Act.skipManaged], rfl⟩
  · exact ⟨[Act.dryBackup, Act.dryCreate], rfl⟩
  · exact ⟨[Act.dryCreate], rfl⟩

/-- Under `--dry-run`, one `uninstall` iteration never mutates the state
and never raises. -/
theorem uninstallStep_dryRun (fuel : Nat) (noBackup : Bool) (fs : FS) (l : Link) :
    ∃ acts, uninstallStep fuel true noBackup fs l = Except.ok (fs, acts) := by
  unfold uninstallStep
  cases Link.status fs fuel l
  · exact ⟨[Act.dryUninstall], rfl⟩
  · exact ⟨[Act.skipUnmanaged], rfl⟩
  · exact ⟨[Act.skipMissing], rfl⟩

/-- A whole `install --dry-run` run returns the state unchanged. -/
theorem installRun_dryRun (fuel : Nat) (links : List Link) :
    ∀ fs : FS, ∃ log, installRun fuel true fs links = Except.ok (fs, log) := by
  induction links with
  | nil => exact fun fs => ⟨[], rfl⟩
  | cons l ls ih =>
    intro fs
    obtain ⟨acts, hstep⟩ := installStep_dryRun fuel fs l
    obtain ⟨log, hrun⟩ := ih fs
    exact ⟨acts ++ log, by simp [installRun, hstep, hrun]⟩

/-- A whole `uninstall --dry-run` run returns the state unchanged. -/
theorem uninstallRun_dryRun (fuel : Nat) (noBackup : Bool) (links : List Link) :
    ∀ fs : FS, ∃ log, uninstallRun fuel true noBackup fs links = Except.ok (fs, log) := by
  induction links with
  | nil => exact fun fs => ⟨[], rfl⟩
  | cons l ls ih =>
    intro fs
    obtain ⟨acts, hstep⟩ := uninstallStep_dryRun fuel noBackup fs l
    obtain ⟨log, hrun⟩ := ih fs
    exact ⟨acts ++ log, by simp [uninstallRun, hstep, hrun]⟩

/-! ## Claim theorems -/

/-- C1: for every filesystem state, fuel bound and `(target, link)` pair,
`Link._status` computes exactly the status prescribed by the spec's
priority order (full resolution equality; else one-level raw-target
comparison for a symbolic reference, dangling or not; else Unmanaged for an
existing real entry; else Missing). -/
theorem status_matches_spec_priority (fs : FS) (fuel : Nat) (l : Link) :
    Link.status fs fuel l = classifySpec fs fuel l.target l.loc := by
  rfl

/-- C2: a dangling symbolic link whose raw one-level target equals the
managed target is classified Managed even though the target does not
exist, and classification raises no exception on any dangling symlink. -/
theorem dangling_raw_equal_is_managed (fs : FS) (fuel : Nat) (l : Link)
    (hsym : FS.lookup fs l.loc = some (Entry.symlink l.target))
    (_hgone : existsF fs fuel l.target = false) :
    Link.statusE fs fuel l = Except.ok LinkStatus.managed ∧
    (∀ (l2 : Link) (t2 : FsPath), FS.lookup fs l2.loc = some (Entry.symlink t2) →
      existsF fs fuel t2 = false →
      ∃ s, Link.statusE fs fuel l2 = Except.ok s) := by
  constructor
  · unfold Link.statusE
    by_cases hr : resolve fs fuel l.loc = l.target
    · simp [hr]
    · simp [hr, isSymlink, readlinkE, hsym]
  · intro l2 t2 h2 _h2gone
    unfold Link.statusE
    by_cases hr : resolve fs fuel l2.loc = l2.target
    · exact ⟨LinkStatus.managed, by simp [hr]⟩
    · by_cases ht : t2 = l2.target
      · exact ⟨LinkStatus.managed, by simp [hr, isSymlink, readlinkE, h2, ht]⟩
      · exact ⟨LinkStatus.unmanaged, by simp [hr, isSymlink, readlinkE, h2, ht]⟩

/-- Witness for C2 at a concrete state: a dangling `~/.foo` pointing at the
(nonexistent) data file is classified Managed. -/
theorem dangling_raw_equal_is_managed_witness :
    Link.statusE danglingFS 20 danglingLink = Except.ok LinkStatus.managed :=
  (dangling_raw_equal_is_managed danglingFS 20 danglingLink (by decide)
    (by decide)).1

/-- C3 (failing input): on a link set with one Unmanaged entry (a plain
file at the link location), the very first `install` run aborts with the
`TypeError` raised by the zero-argument call `link.backup()`, so the entry
never becomes Managed and no second run can record every entry as
skipped. -/
theorem install_unmanaged_aborts_with_type_error :
    installRun 20 false unmanagedFS [unmanagedLink] =
      Except.error "TypeError: backup() missing 1 required positional argument: backups_dir" := by
  rfl

/-- C4 (failing input): for an Unmanaged `~/.vimrc` with real content,
`install` (not dry-run) aborts with `TypeError` before creating any link;
moreover `Link.backup` is a stub that leaves the state unchanged, so the
content is never moved under the backup root and nothing exists at the
backup destination afterwards. -/
theorem install_performs_no_backup :
    installRun 20 false vimrcFS [vimrcLink] =
      Except.error "TypeError: backup() missing 1 required positional argument: backups_dir" ∧
    Link.backupOp vimrcFS vimrcLink backupRoot = vimrcFS ∧
    FS.lookup vimrcFS (backupRoot ++ [".vimrc"]) = none := by
  exact ⟨rfl, rfl, rfl⟩

/-- C5 (failing input): for a Managed entry, a real (non-dry-run)
`uninstall` with `--no-backup` completes while leaving the managed symlink
exactly where it was (nothing is driven to Missing), and without
`--no-backup` the run aborts with the `TypeError` from the zero-argument
`link.backup()` call — in neither case does the link stop existing at its
old location. -/
theorem uninstall_leaves_managed_link_in_place :
    uninstallRun 20 false true managedFS [managedLink] =
      Except.ok (managedFS, [Act.reportedOk]) ∧
    FS.lookup managedFS managedLink.loc =
      some (Entry.symlink managedLink.target) ∧
    uninstallRun 20 false false managedFS [managedLink] =
      Except.error "TypeError: backup() missing 1 required positional argument: backups_dir" := by
  exact ⟨rfl, rfl, rfl⟩

/-- C6: for every starting state and link set, `install --dry-run` and
`uninstall --dry-run` (with either backup flag) complete without error and
return the filesystem state unchanged — no mutation at all. -/
theorem dry_run_performs_no_mutation (fuel : Nat) (fs : FS)
    (links : List Link) (noBackup : Bool) :
    (∃ log, installRun fuel true fs links = Except.ok (fs, log)) ∧
    (∃ log, uninstallRun fuel true noBackup fs links = Except.ok (fs, log)) :=
  ⟨installRun_dryRun fuel links fs, uninstallRun_dryRun fuel noBackup links fs⟩

/-- C7 (failing input): backing up two links with the same base name
`.foo` in one run raises nothing at all — both calls are no-ops of the
stubbed `Link.backup`, the state is unchanged, and nothing is ever placed
at the shared backup destination, instead of the second call failing with
`CollisionError`. -/
theorem backup_collision_unreported :
    Link.backupOp (Link.backupOp collisionFS collisionLinkA backupRoot)
      collisionLinkB backupRoot = collisionFS ∧
    FS.lookup collisionFS (backupRoot ++ [".foo"]) = none := by
  exact ⟨rfl, rfl⟩

/-- C8 (failing input): a configuration holding one explicit symlink pair
(and no directory pairs) expands to the empty link sequence — the
`# TODO handle explicit symlinks` branch of `load_config` drops every
explicit pair — even though the configured pair list is nonempty. -/
theorem explicit_symlink_pairs_dropped :
    (load_config explicitPairFS explicitPairConf).all_links = [] ∧
    explicitPairConf.symlinks ≠ [] := by
  exact ⟨rfl, by decide⟩

/-- C9 (failing input): `add` on an existing real file `~/.bashrc`, a
direct child of the configured link parent with no preexisting target,
aborts with `AttributeError` while evaluating `config.directories` (an
attribute the `Config` object lacks), before any precondition beyond
existence is checked and before any move or link creation. -/
theorem add_aborts_with_attribute_error :
    addCmd 20 (load_config addFS addConf) addFS ["home", "u", ".bashrc"] =
      Except.error "AttributeError: Config object has no attribute directories" := by
  rfl

/-- C10: `Link.backup` performs no filesystem operation whatsoever — for
every state, link and backup directory it returns the state unchanged,
whether or not the link path exists. -/
theorem backup_is_filesystem_noop (fs : FS) (l : Link) (backupsDir : FsPath) :
    Link.backupOp fs l backupsDir = fs := by
  rfl

end Punkt
